import Mathlib

/-!
# AlphaLink meltdown-detection core: a shallow embedding

This file embeds the meltdown detection and trading-control code of the
AlphaLink repository — `scripts/riskScanner.js`, `scripts/aggregatorMonitor.js`,
`src/admin/admin.js` and `src/admin/adminWebApp.js` — and settles the
specification claims about it.

Modelling conventions:

* External I/O (database queries, HTTP fetches) is modelled by explicit
  environment records carrying the outcome of each external call for the
  cycle under consideration; `Except String α` stands for a JavaScript
  call that either returns a value or throws.  A `catch` branch in the
  source corresponds to matching the `.error` constructor.
* Observable side effects (lock queries, state mutations, notifications,
  `console` logging) are collected in order into a `List Effect` trace.
* JavaScript numbers are modelled as `ℚ` (the code only compares and
  divides prices, rates and counts; no float rounding is relied upon).
* `riskControl.pauseGlobalTrading` / `resumeGlobalTrading` live in
  `src/risk/risk_control.js`, which is not part of the sources; their
  invocations are modelled as opaque effects, and the trading-state
  transition protocol itself is modelled from the specification where a
  claim needs it (see `TradingStateStore.pause`).
-/

namespace AlphaLink

/-- One observable side effect of the embedded code, in program order.
`tryAdvisoryLock got` is the `pg_try_advisory_lock(12345)` query together
with the boolean it returned; `advisoryUnlock` is `pg_advisory_unlock(12345)`;
`queryBtcPrice`, `fetchPrice`, `collectMetrics`, `queryFailCount` mark the
data-source reads of the three signal checks; `pauseTrading` / `resumeTrading`
are the calls into `riskControl`; the rest are notifications and logging. -/
inductive Effect where
  | tryAdvisoryLock (got : Bool)
  | advisoryUnlock
  | queryBtcPrice
  | fetchPrice
  | collectMetrics
  | queryFailCount
  | pauseTrading (reason : String)
  | resumeTrading
  | sendAlert (msg : String)
  | notifyAdmin (userId : ℕ) (msg : String)
  | logAdmin (adminId : ℕ) (action : String) (details : String)
  | consoleLog (msg : String)
  | insertAggregatorStats
  deriving DecidableEq, Repr

/-- The `RISK_SCANNER_CONFIG` record of `scripts/riskScanner.js`. -/
structure RiskScannerConfig where
  priceDropThreshold : ℚ
  aggregatorErrorRate : ℚ
  consecutiveFailThreshold : ℕ
  deriving DecidableEq, Repr

/-- `RISK_SCANNER_CONFIG = priceDropThreshold 0.10, aggregatorErrorRate 0.15,
consecutiveFailThreshold 5` (riskScanner.js lines 216-220). -/
def RISK_SCANNER_CONFIG : RiskScannerConfig :=
  { priceDropThreshold := 1/10
    aggregatorErrorRate := 3/20
    consecutiveFailThreshold := 5 }

/-- The external world as seen by `checkMarketConditions` for one cycle:
the `global_metrics` query result (each row an `old_price` value; a SQL
`NULL` is `none` and is parsed to `0` by `parseFloat(x || '0')`), and the
outcome of the CoinGecko fetch performed by `fetchCurrentBTCprice`. -/
structure MarketEnv where
  oldPriceRows : Except String (List (Option ℚ))
  fetchBTC : Except String ℚ

/-- `fetchCurrentBTCprice` (riskScanner.js lines 257-266): returns the fetched
price, or logs the error and returns `null` (`none`). -/
def fetchCurrentBTCprice (r : Except String ℚ) : List Effect × Option ℚ :=
  match r with
  | .ok p => ([.fetchPrice], some p)
  | .error e => ([.fetchPrice, .consoleLog ("Error fetching BTC price: " ++ e)], none)

/-- `checkMarketConditions` (riskScanner.js lines 227-255).  The whole body is
wrapped in try/catch, so a query error is logged and yields `false`; no rows,
a non-positive stored price, a failed fetch, or a falsy (zero) current price
all yield `false`; otherwise the detector triggers iff
`(old - current) / old >= priceDropThreshold`. -/
def checkMarketConditions (cfg : RiskScannerConfig) (env : MarketEnv) :
    List Effect × Bool :=
  match env.oldPriceRows with
  | .error e =>
      ([.queryBtcPrice, .consoleLog ("Error in checkMarketConditions: " ++ e)], false)
  | .ok [] =>
      ([.queryBtcPrice, .consoleLog "No BTC price data found in global_metrics"], false)
  | .ok (row :: _) =>
      let oldPrice := row.getD 0
      if oldPrice ≤ 0 then ([.queryBtcPrice], false)
      else
        match fetchCurrentBTCprice env.fetchBTC with
        | (fe, none) => ([.queryBtcPrice] ++ fe, false)
        | (fe, some currentPrice) =>
            if currentPrice = 0 then ([.queryBtcPrice] ++ fe, false)
            else
              let dropPct := (oldPrice - currentPrice) / oldPrice
              ([.queryBtcPrice] ++ fe, decide (dropPct ≥ cfg.priceDropThreshold))

/-- The two fields of the aggregator-metrics record that
`checkAggregatorMetricsForMeltdown` reads. -/
structure AggStats where
  trade_error_rate : ℚ
  meltdownWarnings : Bool
  deriving DecidableEq, Repr

/-- `checkAggregatorMetricsForMeltdown` (riskScanner.js lines 272-285).
The function has no try/catch: a throwing `collectAggregatorMetrics`
propagates (`.error`), and a `null` stats value makes the field access
`stats.trade_error_rate` throw a `TypeError`.  Otherwise it returns
`rate > aggregatorErrorRate || meltdownWarnings` — note the strict `>`
comparison in the source. -/
def checkAggregatorMetricsForMeltdown (cfg : RiskScannerConfig)
    (collectResult : Except String (Option AggStats)) :
    List Effect × Except String Bool :=
  match collectResult with
  | .error e => ([.collectMetrics], .error e)
  | .ok none =>
      ([.collectMetrics],
       .error "TypeError: Cannot read properties of null (reading trade_error_rate)")
  | .ok (some stats) =>
      ([.collectMetrics],
       .ok (decide (stats.trade_error_rate > cfg.aggregatorErrorRate)
              || stats.meltdownWarnings))

/-- `circuitBreakerChecks` (riskScanner.js lines 291-305).  No try/catch: a
query error propagates.  A missing row is defaulted to `0` by
`parseInt(rows[0]?.fail_count || '0')`; the breaker trips iff
`failCount >= consecutiveFailThreshold`. -/
def circuitBreakerChecks (cfg : RiskScannerConfig)
    (failCountRes : Except String (Option ℕ)) :
    List Effect × Except String Bool :=
  match failCountRes with
  | .error e => ([.queryFailCount], .error e)
  | .ok failCount? =>
      ([.queryFailCount],
       .ok (decide (failCount?.getD 0 ≥ cfg.consecutiveFailThreshold)))

/-- The one reason string `runRiskScanner` ever passes to
`meltdownDetectedAction` (riskScanner.js line 352), fixed regardless of
which signal sources triggered. -/
def meltdownReasonArg : String := "Flash Crash / aggregator meltdown / circuit breaker"

/-- `meltdownDetectedAction` (riskScanner.js lines 312-320): pause global
trading with a reason derived from the argument, then alert the admins. -/
def meltdownDetectedAction (reason : String) : List Effect :=
  [.pauseTrading ("riskScanner meltdown => " ++ reason),
   .sendAlert ("Meltdown Detected. Reason: " ++ reason
      ++ ". Auto-freeze trading has been enabled.")]

/-- The external world as seen by one `runRiskScanner` cycle: whether
`pg_try_advisory_lock` granted the lock, and the outcomes of the three
signal sources' external reads. -/
structure ScannerEnv where
  gotLock : Bool
  market : MarketEnv
  aggMetrics : Except String (Option AggStats)
  failCountRows : Except String (Option ℕ)

/-- How one `runRiskScanner` invocation ends: skipped because the advisory
lock was busy, completed normally with the computed `meltdownTriggered`
flag, or terminated by a propagating exception. -/
inductive CycleResult where
  | skipped
  | completed (meltdownTriggered : Bool)
  | errored (e : String)
  deriving DecidableEq, Repr

/-- `runRiskScanner` (riskScanner.js lines 330-357).  If the advisory lock is
busy it logs and returns; otherwise the try block evaluates the three checks
in order — an exception from the aggregator or circuit-breaker check aborts
the rest of the try block — and the `finally` issues `pg_advisory_unlock`
on every exit path of the try block. -/
def runRiskScanner (cfg : RiskScannerConfig) (env : ScannerEnv) :
    List Effect × CycleResult :=
  if env.gotLock then
    let m := checkMarketConditions cfg env.market
    let a := checkAggregatorMetricsForMeltdown cfg env.aggMetrics
    match a.2 with
    | .error e =>
        ([.tryAdvisoryLock true] ++ m.1 ++ a.1 ++ [.advisoryUnlock], .errored e)
    | .ok aggregatorMeltdown =>
        let c := circuitBreakerChecks cfg env.failCountRows
        match c.2 with
        | .error e =>
            ([.tryAdvisoryLock true] ++ m.1 ++ a.1 ++ c.1 ++ [.advisoryUnlock],
             .errored e)
        | .ok circuitTripped =>
            let meltdownTriggered := m.2 || aggregatorMeltdown || circuitTripped
            let act := if meltdownTriggered then meltdownDetectedAction meltdownReasonArg
                       else []
            ([.tryAdvisoryLock true] ++ m.1 ++ a.1 ++ c.1 ++ act ++ [.advisoryUnlock],
             .completed meltdownTriggered)
  else
    ([.tryAdvisoryLock false,
      .consoleLog "Another instance of riskScanner is already running."],
     .skipped)

/-- The reasons carried by a cycle's meltdown decision.  The code builds no
reasons list: the only reason string it ever produces is the fixed
`meltdownReasonArg` handed to `meltdownDetectedAction` when the cycle
completed with `meltdownTriggered = true`. -/
def decisionReasons : CycleResult → List String
  | .completed true => [meltdownReasonArg]
  | _ => []

/-- `forceMarketPause` (admin.js lines 180-189): log the admin action, call
`riskControl.pauseGlobalTrading(reason)` directly, then notify every
superadmin.  No lock of any kind is taken. -/
def forceMarketPause (adminId : ℕ) (reason : String) (superadminIds : List ℕ) :
    List Effect :=
  [.logAdmin adminId "forceMarketPause" reason, .pauseTrading reason]
    ++ superadminIds.map (fun u => .notifyAdmin u ("Market paused: " ++ reason))

/-- An Express route response as the embedded handlers produce it. -/
structure HttpResponse where
  status : ℕ
  success : Bool
  message : String
  deriving DecidableEq, Repr

/-- The `POST /admin_webapp/control_center/pause_ai` handler
(adminWebApp.js lines 161-169): requires role `superadmin`, else 403
`Permission denied`; otherwise pauses trading with the body reason
(default `Manual Admin Pause`).  No lock is taken. -/
def pauseAiRoute (adminRole : String) (bodyReason : Option String) :
    List Effect × HttpResponse :=
  if adminRole ≠ "superadmin" then
    ([], { status := 403, success := false, message := "Permission denied" })
  else
    let reason := bodyReason.getD "Manual Admin Pause"
    ([.pauseTrading reason],
     { status := 200, success := true, message := "AI Trading is paused globally." })

/-- The `POST /admin_webapp/control_center/resume_ai` handler
(adminWebApp.js lines 175-182).  `adminRole` is the caller's role as the
session middleware could resolve it; the handler never reads it — it calls
`riskControl.resumeGlobalTrading()` (which receives no actor argument)
unconditionally, answering 200 on success and a generic 500 on a thrown
error.  No lock is taken and no permission check is made. -/
def resumeAiRoute (adminRole : String) (resumeOutcome : Except String Unit) :
    List Effect × HttpResponse :=
  match resumeOutcome with
  | .ok _ =>
      ([.resumeTrading],
       { status := 200, success := true, message := "AI Trading resumed globally." })
  | .error _ =>
      ([.resumeTrading],
       { status := 500, success := false,
         message := "An unexpected error occurred. Please try again later." })

/-- Who performed a trading-state transition. -/
inductive Actor where
  | system
  | admin (adminId : ℕ)
  deriving DecidableEq, Repr

/-- The durable trading state of specification section 3. -/
structure TradingState where
  enabled : Bool
  reason : String
  changedAt : ℕ
  changedBy : Actor
  deriving DecidableEq, Repr

/-- Modelled from the spec: `TradingStateStore.pause(reason, actor)` of
section 4.3.  The implementing file `src/risk/risk_control.js`
(`pauseGlobalTrading`) is not among the sources; per the spec the
operation is idempotent on the flag, an automatic (SYSTEM) pause never
overwrites the reason, actor or timestamp of an existing admin-set pause,
and any other pause records the new reason, actor and time. -/
def TradingStateStore.pause (st : TradingState) (reason : String) (actor : Actor)
    (now : ℕ) : TradingState :=
  if st.enabled then
    { enabled := false, reason := reason, changedAt := now, changedBy := actor }
  else
    match st.changedBy, actor with
    | .admin _, .system => st
    | _, _ => { enabled := false, reason := reason, changedAt := now, changedBy := actor }

/-- The `ERROR_RATE_THRESHOLD` default of aggregatorMonitor.js (0.1). -/
def ERROR_RATE_THRESHOLD : ℚ := 1/10

/-- The `QUEUE_LENGTH_THRESHOLD` default of aggregatorMonitor.js (20). -/
def QUEUE_LENGTH_THRESHOLD : ℕ := 20

/-- The single row of the windowed error-rate aggregate query of
aggregatorMonitor.js (a `COUNT` aggregate always yields exactly one row). -/
structure ErrorRateRow where
  fail_count : ℕ
  total_count : ℕ
  deriving DecidableEq, Repr

/-- The stats record built by `collectAggregatorMetrics` in
aggregatorMonitor.js (the recent-trades feed is omitted: nothing the
claims mention reads it). -/
structure AggMonitorStats where
  aggregator_tps : ℚ
  trade_error_rate : ℚ
  avgLatencyMs : ℚ
  queueLength : ℕ
  vault_conflict_count : ℕ
  rpcHealthy : Bool
  meltdownWarnings : Bool
  deriving DecidableEq, Repr

/-- The external world for one aggregator-monitor cycle.  The TPS query may
throw or return any row list (the code checks for an empty list); the
error-rate query may throw but, being a `COUNT` aggregate, returns exactly
one row when it succeeds.  The later reads (latency, conflicts, RPC probe)
are modelled as plain values — their failure modes decide no claim. -/
structure MonitorEnv where
  tpsRows : Except String (List ℕ)
  errorRateRow : Except String ErrorRateRow
  avgLatency : ℚ
  conflicts : ℕ
  rpcOk : Bool

/-- The windowed error rate as aggregatorMonitor.js computes it
(lines 90-95): `fail / total` when the window saw any executions,
otherwise `0`. -/
def trade_error_rate_of (failCount totalCount : ℕ) : ℚ :=
  if totalCount > 0 then (failCount : ℚ) / totalCount else 0

/-- `collectAggregatorMetrics` (aggregatorMonitor.js lines 51-162): a TPS
query error or empty row list returns `null` (`none`), an error-rate query
error returns `null`; otherwise the stats record is built, with
`queueLength` fixed at `0` and `meltdownWarnings` fixed at `false` as in
the source. -/
def collectAggregatorMetrics (env : MonitorEnv) :
    Except String (Option AggMonitorStats) :=
  match env.tpsRows with
  | .error _ => .ok none
  | .ok [] => .ok none
  | .ok (tradesIn60 :: _) =>
      match env.errorRateRow with
      | .error _ => .ok none
      | .ok row =>
          .ok (some
            { aggregator_tps := (tradesIn60 : ℚ) / 60
              trade_error_rate := trade_error_rate_of row.fail_count row.total_count
              avgLatencyMs := env.avgLatency
              queueLength := 0
              vault_conflict_count := env.conflicts
              rpcHealthy := env.rpcOk
              meltdownWarnings := false })

/-- The `TypeError` raised when `handleAggregatorStats` dereferences a
`null` stats argument. -/
def nullStatsTypeError : String :=
  "TypeError: Cannot read properties of null (reading aggregator_tps)"

/-- `handleAggregatorStats` (aggregatorMonitor.js lines 169-205): reads
fields of its argument unconditionally — a `null` argument throws — then
inserts the stats row and sends the threshold alerts. -/
def handleAggregatorStats (stats : Option AggMonitorStats) :
    Except String (List Effect) :=
  match stats with
  | none => .error nullStatsTypeError
  | some s =>
      .ok ([.insertAggregatorStats]
        ++ (if s.trade_error_rate > ERROR_RATE_THRESHOLD
            then [.sendAlert "Aggregator High Error Rate"] else [])
        ++ (if s.queueLength > QUEUE_LENGTH_THRESHOLD
            then [.sendAlert "Aggregator Queue Backlog"] else [])
        ++ (if s.rpcHealthy then [] else [.sendAlert "Solana RPC Unhealthy"]))

/-- `runAggregatorMonitor` (aggregatorMonitor.js lines 213-217): collect the
stats and hand the result — `null` included — straight to
`handleAggregatorStats`, with no null check in between. -/
def runAggregatorMonitor (env : MonitorEnv) : Except String (List Effect) :=
  match collectAggregatorMetrics env with
  | .error e => .error e
  | .ok stats => handleAggregatorStats stats

/-! ## Helper lemmas -/

/-- The market check only ever emits its own query, fetch and log effects;
in particular it never emits the circuit-breaker query. -/
theorem queryFailCount_not_mem_market (cfg : RiskScannerConfig) (env : MarketEnv) :
    Effect.queryFailCount ∉ (checkMarketConditions cfg env).1 := by
  obtain ⟨rows, fetch⟩ := env
  unfold checkMarketConditions fetchCurrentBTCprice
  rcases rows with e | (_ | ⟨row, rest⟩) <;> rcases fetch with e' | p <;>
    dsimp only <;> (try split_ifs) <;> simp

/-! ## Claims -/

/-- Environment for claim C1: the lock is granted, the market source
evaluates cleanly (no drop), the aggregator source's metrics collection
throws a network error, and the failure-burst window holds zero failures. -/
def C1env : ScannerEnv :=
  { gotLock := true
    market := { oldPriceRows := .ok [some 100], fetchBTC := .ok 100 }
    aggMetrics := .error "network error"
    failCountRows := .ok (some 0) }

/-- C1, counterexample: the claim says every signal source is evaluated even
when another source errors, the failure degrading to a non-triggering
verdict instead of propagating.  In a cycle where the aggregator source's
metrics collection throws, `runRiskScanner` ends in that propagated error
and the failure-burst source is never evaluated (its query effect is absent
from the trace) — the error is not converted into a verdict.  The lock is
still released by the `finally`. -/
theorem C1_counterexample :
    (runRiskScanner RISK_SCANNER_CONFIG C1env).2 = CycleResult.errored "network error" ∧
    Effect.queryFailCount ∉ (runRiskScanner RISK_SCANNER_CONFIG C1env).1 ∧
    Effect.advisoryUnlock ∈ (runRiskScanner RISK_SCANNER_CONFIG C1env).1 := by
  decide

/-- C1, amended: only the market source is failure-isolated.
`checkMarketConditions` converts its own query failure into a
non-triggering verdict, but an aggregator-source failure propagates out of
the cycle as an error, skipping the failure-burst check entirely; the
advisory lock is nevertheless released. -/
theorem C1_isolation_amended (cfg : RiskScannerConfig) (env : ScannerEnv) (e : String)
    (hlock : env.gotLock = true) (hagg : env.aggMetrics = .error e) :
    (∀ e' fb, (checkMarketConditions cfg { oldPriceRows := .error e', fetchBTC := fb }).2 = false) ∧
    (runRiskScanner cfg env).2 = CycleResult.errored e ∧
    Effect.queryFailCount ∉ (runRiskScanner cfg env).1 ∧
    Effect.advisoryUnlock ∈ (runRiskScanner cfg env).1 := by
  have hm := queryFailCount_not_mem_market cfg env.market
  refine ⟨fun e' fb => by rcases fb with e2 | p <;> simp [checkMarketConditions], ?_, ?_, ?_⟩
  · simp [runRiskScanner, hlock, hagg, checkAggregatorMetricsForMeltdown]
  · simp [runRiskScanner, hlock, hagg, checkAggregatorMetricsForMeltdown, hm]
  · simp [runRiskScanner, hlock, hagg, checkAggregatorMetricsForMeltdown]

/-- Witness for C1's amended theorem at the concrete environment `C1env`. -/
theorem C1_isolation_witness :
    C1env.gotLock = true ∧
    (runRiskScanner RISK_SCANNER_CONFIG C1env).2 = CycleResult.errored "network error" :=
  ⟨rfl, (C1_isolation_amended RISK_SCANNER_CONFIG C1env "network error" rfl rfl).2.1⟩

/-- C2, counterexample: the claim says every manual admin override entry
point acquires the mutual-exclusion gate before mutating the trading state.
`forceMarketPause` mutates the trading state (`pauseTrading`) yet its trace
contains no advisory-lock acquisition at all, and likewise the resume
route; so a manual action can run concurrently with an in-flight automatic
cycle that holds the lock. -/
theorem C2_counterexample :
    Effect.pauseTrading "Manual Admin Pause" ∈ forceMarketPause 7 "Manual Admin Pause" [] ∧
    Effect.tryAdvisoryLock true ∉ forceMarketPause 7 "Manual Admin Pause" [] ∧
    Effect.tryAdvisoryLock false ∉ forceMarketPause 7 "Manual Admin Pause" [] ∧
    Effect.resumeTrading ∈ (resumeAiRoute "superadmin" (Except.ok ())).1 ∧
    Effect.tryAdvisoryLock true ∉ (resumeAiRoute "superadmin" (Except.ok ())).1 ∧
    Effect.tryAdvisoryLock false ∉ (resumeAiRoute "superadmin" (Except.ok ())).1 := by
  decide

/-- C2, amended: the manual admin override entry points (`forceMarketPause`
and the pause/resume routes) call into the trading state directly and never
attempt any advisory-lock acquisition; only the automatic `runRiskScanner`
cycle uses the gate, so manual and automatic mutations are not mutually
excluded. -/
theorem C2_no_gate_amended (adminId : ℕ) (reason : String) (admins : List ℕ)
    (role : String) (body : Option String) (r : Except String Unit) (b : Bool) :
    Effect.pauseTrading reason ∈ forceMarketPause adminId reason admins ∧
    Effect.tryAdvisoryLock b ∉ forceMarketPause adminId reason admins ∧
    Effect.tryAdvisoryLock b ∉ (pauseAiRoute role body).1 ∧
    Effect.tryAdvisoryLock b ∉ (resumeAiRoute role r).1 := by
  refine ⟨by simp [forceMarketPause], by simp [forceMarketPause], ?_, ?_⟩
  · unfold pauseAiRoute; split_ifs <;> simp
  · rcases r with e | u <;> simp [resumeAiRoute]

/-- A trading state paused by admin 7, for claim C3's witness. -/
def adminPausedState : TradingState :=
  { enabled := false, reason := "Manual Admin Pause", changedAt := 10
    changedBy := Actor.admin 7 }

/-- A trading state paused automatically, for claim C3's witness. -/
def systemPausedState : TradingState :=
  { enabled := false, reason := "riskScanner meltdown => old", changedAt := 11
    changedBy := Actor.system }

/-- C3: against the spec-modelled `TradingStateStore.pause`, an automatic
(SYSTEM) pause on top of an admin-set pause leaves the persisted reason,
actor and timestamp unchanged (the whole state is returned untouched),
while an automatic pause on top of an earlier automatic pause updates the
reason and timestamp to the most recent trigger. -/
theorem C3_admin_pause_precedence (st1 st2 : TradingState) (a : ℕ) (r : String) (t : ℕ)
    (h1 : st1.enabled = false) (h2 : st1.changedBy = Actor.admin a)
    (h3 : st2.enabled = false) (h4 : st2.changedBy = Actor.system) :
    TradingStateStore.pause st1 r Actor.system t = st1 ∧
    TradingStateStore.pause st2 r Actor.system t =
      { enabled := false, reason := r, changedAt := t, changedBy := Actor.system } := by
  constructor
  · unfold TradingStateStore.pause
    rw [h1, h2]
    simp
  · unfold TradingStateStore.pause
    rw [h3, h4]
    simp

/-- Witness for C3 at two concrete pre-states. -/
theorem C3_witness :
    adminPausedState.enabled = false ∧ adminPausedState.changedBy = Actor.admin 7 ∧
    systemPausedState.enabled = false ∧ systemPausedState.changedBy = Actor.system ∧
    (TradingStateStore.pause adminPausedState "riskScanner meltdown => new" Actor.system 12
        = adminPausedState ∧
     TradingStateStore.pause systemPausedState "riskScanner meltdown => new" Actor.system 12
        = { enabled := false, reason := "riskScanner meltdown => new", changedAt := 12
            changedBy := Actor.system }) :=
  ⟨rfl, rfl, rfl, rfl,
   C3_admin_pause_precedence adminPausedState systemPausedState 7
     "riskScanner meltdown => new" 12 rfl rfl rfl rfl⟩

/-- Environment for claim C4: the market source triggers (15 percent drop
against a 10 percent threshold) and the failure-burst source triggers
(7 failures against a threshold of 5), while the aggregator source does
not (zero error rate, no warning flag). -/
def C4env : ScannerEnv :=
  { gotLock := true
    market := { oldPriceRows := .ok [some 100], fetchBTC := .ok 85 }
    aggMetrics := .ok (some { trade_error_rate := 0, meltdownWarnings := false })
    failCountRows := .ok (some 7) }

/-- C4, counterexample: the claim says the decision's reasons list contains
only the reasons of the sources that actually triggered, in source-priority
order.  In a cycle where exactly two sources trigger (market and
failure-burst, not aggregator), the code produces the single fixed reason
string — one element, not two, and its text names the non-triggering
aggregator meltdown as well — so the list neither enumerates the triggering
sources nor excludes the non-triggering ones. -/
theorem C4_counterexample :
    (checkMarketConditions RISK_SCANNER_CONFIG C4env.market).2 = true ∧
    (checkAggregatorMetricsForMeltdown RISK_SCANNER_CONFIG C4env.aggMetrics).2
      = Except.ok false ∧
    (circuitBreakerChecks RISK_SCANNER_CONFIG C4env.failCountRows).2 = Except.ok true ∧
    decisionReasons (runRiskScanner RISK_SCANNER_CONFIG C4env).2
      = ["Flash Crash / aggregator meltdown / circuit breaker"] := by
  refine ⟨?_, ?_, ?_, ?_⟩
  · norm_num [checkMarketConditions, fetchCurrentBTCprice, RISK_SCANNER_CONFIG, C4env,
      decide_eq_true_eq]
  · norm_num [checkAggregatorMetricsForMeltdown, RISK_SCANNER_CONFIG, C4env,
      decide_eq_false_iff_not]
  · norm_num [circuitBreakerChecks, RISK_SCANNER_CONFIG, C4env, decide_eq_true_eq]
  · norm_num [runRiskScanner, checkMarketConditions, fetchCurrentBTCprice,
      checkAggregatorMetricsForMeltdown, circuitBreakerChecks, decisionReasons,
      meltdownDetectedAction, meltdownReasonArg, RISK_SCANNER_CONFIG, C4env,
      decide_eq_true_eq, decide_eq_false_iff_not]

/-- C4, amended: when at least one source triggers (and no source errors),
the cycle completes with `meltdownTriggered = true` and the decision
carries the non-empty, deterministic, single fixed reason
`meltdownReasonArg`, independent of which sources triggered; that reason is
the one passed to the pause. -/
theorem C4_fixed_reason_amended (cfg : RiskScannerConfig) (env : ScannerEnv)
    (aggT circT : Bool)
    (hlock : env.gotLock = true)
    (hagg : (checkAggregatorMetricsForMeltdown cfg env.aggMetrics).2 = Except.ok aggT)
    (hcirc : (circuitBreakerChecks cfg env.failCountRows).2 = Except.ok circT)
    (htrig : ((checkMarketConditions cfg env.market).2 || aggT || circT) = true) :
    (runRiskScanner cfg env).2 = CycleResult.completed true ∧
    decisionReasons (runRiskScanner cfg env).2 = [meltdownReasonArg] ∧
    Effect.pauseTrading ("riskScanner meltdown => " ++ meltdownReasonArg)
      ∈ (runRiskScanner cfg env).1 := by
  refine ⟨?_, ?_, ?_⟩ <;>
    simp [runRiskScanner, hlock, hagg, hcirc, htrig, decisionReasons,
      meltdownDetectedAction]

/-- Witness for C4's amended theorem at the concrete environment `C4env`. -/
theorem C4_fixed_reason_witness :
    (checkAggregatorMetricsForMeltdown RISK_SCANNER_CONFIG C4env.aggMetrics).2
      = Except.ok false ∧
    (circuitBreakerChecks RISK_SCANNER_CONFIG C4env.failCountRows).2 = Except.ok true ∧
    decisionReasons (runRiskScanner RISK_SCANNER_CONFIG C4env).2 = [meltdownReasonArg] :=
  ⟨by norm_num [checkAggregatorMetricsForMeltdown, RISK_SCANNER_CONFIG, C4env,
      decide_eq_false_iff_not],
   by norm_num [circuitBreakerChecks, RISK_SCANNER_CONFIG, C4env, decide_eq_true_eq],
   (C4_fixed_reason_amended RISK_SCANNER_CONFIG C4env false true rfl
      (by norm_num [checkAggregatorMetricsForMeltdown, RISK_SCANNER_CONFIG, C4env,
        decide_eq_false_iff_not])
      (by norm_num [circuitBreakerChecks, RISK_SCANNER_CONFIG, C4env, decide_eq_true_eq])
      (by simp)).2.1⟩

/-- C5, counterexample: the claim says that for every valid prior price
strictly greater than zero the detector triggers exactly when the relative
drop reaches the threshold.  With prior price 100 and a successfully
fetched current price of 0, the relative drop is 1 (at or above any
configured threshold, here 0.10), yet the detector does not trigger: the
code's falsy-value guard treats a zero current price like a missing one. -/
theorem C5_counterexample :
    (checkMarketConditions RISK_SCANNER_CONFIG
        { oldPriceRows := .ok [some 100], fetchBTC := .ok 0 }).2 = false ∧
    RISK_SCANNER_CONFIG.priceDropThreshold ≤ ((100 : ℚ) - 0) / 100 := by
  constructor
  · norm_num [checkMarketConditions, fetchCurrentBTCprice]
  · norm_num [RISK_SCANNER_CONFIG]

/-- C5, amended: with a stored prior price strictly greater than zero and a
successfully fetched nonzero current price, the detector triggers exactly
when `(old - current) / old` is at least `priceDropThreshold`; a zero or
missing stored price, an empty query result, or a failed fetch each yield
not-triggered, and a failed fetch logs the error. -/
theorem C5_market_shock_amended (cfg : RiskScannerConfig) (old cur : ℚ)
    (rest : List (Option ℚ)) (e : String)
    (hold : 0 < old) (hcur : cur ≠ 0) :
    ((checkMarketConditions cfg
          { oldPriceRows := .ok (some old :: rest), fetchBTC := .ok cur }).2 = true
        ↔ cfg.priceDropThreshold ≤ (old - cur) / old) ∧
    (checkMarketConditions cfg
        { oldPriceRows := .ok (some 0 :: rest), fetchBTC := .ok cur }).2 = false ∧
    (checkMarketConditions cfg
        { oldPriceRows := .ok (none :: rest), fetchBTC := .ok cur }).2 = false ∧
    (checkMarketConditions cfg
        { oldPriceRows := .ok [], fetchBTC := .ok cur }).2 = false ∧
    (checkMarketConditions cfg
        { oldPriceRows := .ok (some old :: rest), fetchBTC := .error e }).2 = false ∧
    Effect.consoleLog ("Error fetching BTC price: " ++ e)
      ∈ (checkMarketConditions cfg
          { oldPriceRows := .ok (some old :: rest), fetchBTC := .error e }).1 := by
  have hold' : ¬ old ≤ 0 := not_le.mpr hold
  refine ⟨?_, ?_, ?_, ?_, ?_, ?_⟩ <;>
    simp [checkMarketConditions, fetchCurrentBTCprice, hold', hcur, ge_iff_le]

/-- Witness for C5's amended theorem: prior price 100, current price 85,
default 10 percent threshold (the spec's end-to-end scenario A inputs). -/
theorem C5_market_shock_witness :
    (0 : ℚ) < 100 ∧ (85 : ℚ) ≠ 0 ∧
    ((checkMarketConditions RISK_SCANNER_CONFIG
          { oldPriceRows := .ok [some 100], fetchBTC := .ok 85 }).2 = true
      ↔ RISK_SCANNER_CONFIG.priceDropThreshold ≤ ((100 : ℚ) - 85) / 100) :=
  ⟨by norm_num, by norm_num,
   (C5_market_shock_amended RISK_SCANNER_CONFIG 100 85 [] "timeout"
      (by norm_num) (by norm_num)).1⟩

/-- C6, counterexample: the claim says the aggregator detector triggers
when the error rate is greater than or equal to the threshold.  At an
error rate exactly equal to the 0.15 threshold, with no warning flag, the
source's strict `>` comparison yields not-triggered. -/
theorem C6_counterexample :
    (checkAggregatorMetricsForMeltdown RISK_SCANNER_CONFIG
        (Except.ok (some { trade_error_rate := 3/20, meltdownWarnings := false }))).2
      = Except.ok false ∧
    RISK_SCANNER_CONFIG.aggregatorErrorRate ≤ 3/20 := by
  constructor
  · norm_num [checkAggregatorMetricsForMeltdown, RISK_SCANNER_CONFIG,
      decide_eq_false_iff_not]
  · norm_num [RISK_SCANNER_CONFIG]

/-- C6, amended: the aggregator detector triggers exactly when the windowed
error rate is strictly greater than `aggregatorErrorRate` or the
meltdown-warning flag is set; a window with zero total executions yields an
error rate of 0 and (with the flag clear) no trigger from the rate. -/
theorem C6_aggregator_health_amended (cfg : RiskScannerConfig) (s : AggStats) (fail : ℕ) :
    ((checkAggregatorMetricsForMeltdown cfg (Except.ok (some s))).2 = Except.ok true
        ↔ (cfg.aggregatorErrorRate < s.trade_error_rate ∨ s.meltdownWarnings = true)) ∧
    trade_error_rate_of fail 0 = 0 ∧
    (checkAggregatorMetricsForMeltdown RISK_SCANNER_CONFIG
        (Except.ok (some { trade_error_rate := trade_error_rate_of fail 0
                           meltdownWarnings := false }))).2 = Except.ok false := by
  refine ⟨?_, ?_, ?_⟩
  · simp [checkAggregatorMetricsForMeltdown]
  · simp [trade_error_rate_of]
  · norm_num [checkAggregatorMetricsForMeltdown, trade_error_rate_of, RISK_SCANNER_CONFIG]

/-- C7, counterexample: the claim says resume fails with `PermissionDenied`,
without changing state, when invoked by a non-privileged actor.  A caller
whose admin role is `none` gets a 200 success and the resume call is made:
the handler consults neither the caller's role nor the actor that set the
pause (the underlying resume call takes no actor argument). -/
theorem C7_counterexample :
    (resumeAiRoute "none" (Except.ok ())).2 =
      { status := 200, success := true, message := "AI Trading resumed globally." } ∧
    Effect.resumeTrading ∈ (resumeAiRoute "none" (Except.ok ())).1 := by
  decide

/-- C7, amended: the resume route is role-independent — it behaves
identically for every caller role, never returns a 403 permission error,
answers 200 success when the underlying resume call succeeds, and always
issues the resume; only the pause route enforces the superadmin check. -/
theorem C7_resume_unchecked_amended (role : String) (r : Except String Unit) :
    resumeAiRoute role r = resumeAiRoute "superadmin" r ∧
    (resumeAiRoute role r).2.status ≠ 403 ∧
    (resumeAiRoute role (Except.ok ())).2 =
      { status := 200, success := true, message := "AI Trading resumed globally." } ∧
    Effect.resumeTrading ∈ (resumeAiRoute role r).1 := by
  rcases r with e | u <;> simp [resumeAiRoute]

/-- C8: whenever a cycle acquires the advisory lock, the unlock query is
issued on every exit path — normal completion (triggered or not), and both
mid-evaluation error exits — as the trace's final effect. -/
theorem C8_gate_released_on_every_exit (cfg : RiskScannerConfig) (env : ScannerEnv)
    (h : env.gotLock = true) :
    ∃ pre, (runRiskScanner cfg env).1 = pre ++ [Effect.advisoryUnlock] := by
  cases hA : (checkAggregatorMetricsForMeltdown cfg env.aggMetrics).2 with
  | error e =>
      exact ⟨[Effect.tryAdvisoryLock true] ++ (checkMarketConditions cfg env.market).1
          ++ (checkAggregatorMetricsForMeltdown cfg env.aggMetrics).1,
        by simp [runRiskScanner, h, hA]⟩
  | ok b =>
      cases hC : (circuitBreakerChecks cfg env.failCountRows).2 with
      | error e =>
          exact ⟨[Effect.tryAdvisoryLock true] ++ (checkMarketConditions cfg env.market).1
              ++ (checkAggregatorMetricsForMeltdown cfg env.aggMetrics).1
              ++ (circuitBreakerChecks cfg env.failCountRows).1,
            by simp [runRiskScanner, h, hA, hC]⟩
      | ok c =>
          exact ⟨[Effect.tryAdvisoryLock true] ++ (checkMarketConditions cfg env.market).1
              ++ (checkAggregatorMetricsForMeltdown cfg env.aggMetrics).1
              ++ (circuitBreakerChecks cfg env.failCountRows).1
              ++ (if (checkMarketConditions cfg env.market).2 || b || c then
                    meltdownDetectedAction meltdownReasonArg else []),
            by simp [runRiskScanner, h, hA, hC]⟩

/-- Environment for claim C8's witness: lock granted, all sources quiet. -/
def quietEnv : ScannerEnv :=
  { gotLock := true
    market := { oldPriceRows := .ok [some 100], fetchBTC := .ok 100 }
    aggMetrics := .ok (some { trade_error_rate := 0, meltdownWarnings := false })
    failCountRows := .ok (some 0) }

/-- Witness for C8 at the concrete environment `quietEnv`. -/
theorem C8_gate_released_witness :
    quietEnv.gotLock = true ∧
    ∃ pre, (runRiskScanner RISK_SCANNER_CONFIG quietEnv).1
      = pre ++ [Effect.advisoryUnlock] :=
  ⟨rfl, C8_gate_released_on_every_exit RISK_SCANNER_CONFIG quietEnv rfl⟩

/-- C9: when the advisory lock is already held elsewhere, the cycle returns
immediately as skipped — its trace is just the non-blocking lock attempt
and a log line, with no trading-state mutation and no alert of any kind. -/
theorem C9_busy_cycle_skips (cfg : RiskScannerConfig) (env : ScannerEnv)
    (h : env.gotLock = false) :
    (runRiskScanner cfg env).2 = CycleResult.skipped ∧
    (runRiskScanner cfg env).1 =
      [Effect.tryAdvisoryLock false,
       Effect.consoleLog "Another instance of riskScanner is already running."] ∧
    (∀ r, Effect.pauseTrading r ∉ (runRiskScanner cfg env).1) ∧
    Effect.resumeTrading ∉ (runRiskScanner cfg env).1 ∧
    (∀ m, Effect.sendAlert m ∉ (runRiskScanner cfg env).1) := by
  simp [runRiskScanner, h]

/-- Environment for claim C9's witness: the advisory lock is busy. -/
def busyEnv : ScannerEnv :=
  { gotLock := false
    market := { oldPriceRows := .ok [], fetchBTC := .ok 0 }
    aggMetrics := .ok none
    failCountRows := .ok none }

/-- Witness for C9 at the concrete environment `busyEnv`. -/
theorem C9_busy_cycle_witness :
    busyEnv.gotLock = false ∧
    (runRiskScanner RISK_SCANNER_CONFIG busyEnv).2 = CycleResult.skipped :=
  ⟨rfl, (C9_busy_cycle_skips RISK_SCANNER_CONFIG busyEnv rfl).1⟩

/-- C10: if the TPS query fails or returns no rows, or the error-rate query
fails, `collectAggregatorMetrics` returns `null`, and `runAggregatorMonitor`
hands that `null` straight to `handleAggregatorStats`, whose unconditional
field read faults with a `TypeError` — the monitor cycle faults rather
than skipping. -/
theorem C10_null_stats_faults (env : MonitorEnv) (e : String)
    (h : env.tpsRows = .error e ∨ env.tpsRows = .ok [] ∨ env.errorRateRow = .error e) :
    collectAggregatorMetrics env = .ok none ∧
    handleAggregatorStats none = .error nullStatsTypeError ∧
    runAggregatorMonitor env = .error nullStatsTypeError := by
  have hc : collectAggregatorMetrics env = .ok none := by
    rcases h with h | h | h
    · simp [collectAggregatorMetrics, h]
    · simp [collectAggregatorMetrics, h]
    · unfold collectAggregatorMetrics
      cases htps : env.tpsRows with
      | error _ => rfl
      | ok rows =>
          cases rows with
          | nil => rfl
          | cons x xs => simp [h]
  exact ⟨hc, rfl, by simp [runAggregatorMonitor, hc, handleAggregatorStats]⟩

/-- Environment for claim C10's witness: the TPS query throws. -/
def downEnv : MonitorEnv :=
  { tpsRows := .error "db connection lost"
    errorRateRow := .ok { fail_count := 0, total_count := 0 }
    avgLatency := 0
    conflicts := 0
    rpcOk := true }

/-- Witness for C10 at the concrete environment `downEnv`. -/
theorem C10_null_stats_witness :
    (downEnv.tpsRows = .error "db connection lost" ∨ downEnv.tpsRows = .ok [] ∨
      downEnv.errorRateRow = .error "db connection lost") ∧
    runAggregatorMonitor downEnv = .error nullStatsTypeError :=
  ⟨Or.inl rfl,
   (C10_null_stats_faults downEnv "db connection lost" (Or.inl rfl)).2.2⟩

end AlphaLink
